import Mathlib

/-!
Verification of the task-tracked download-and-resize pipeline of the
immich-album-downloader repository, against its natural-language spec.

The definitions below are a shallow embedding of the Python source in
`src/frontend/src/database_async.py` and `src/frontend/src/processor.py`.
(`src/frontend/src/database.py` contains the same logic in a synchronous
variant; that file is not even importable Python — it uses `await` inside
non-`async` functions — so the asynchronous module is the authority.)
Machine integers are modelled as `Nat`/`Int` (Python integers are unbounded),
byte strings as `List Nat`, SQL rows as structures, and each fallible store
operation is parameterised by an explicit outcome describing whether the
underlying SQLite call succeeds or raises `OperationalError` ("store busy").
Python float division in the letterbox computation is modelled exactly by `ℚ`;
`int()` applied to a nonnegative value is its floor.
-/

/-! ## Blob Chunk Store (`save_downloaded_album_chunked`) -/

/-- One row of the `downloaded_albums` table, as inserted by
`save_downloaded_album_chunked`. -/
structure AlbumRow where
  album_id : String
  album_name : String
  photo_count : Nat
  total_size : Nat
  chunk_count : Nat
  deriving Repr, DecidableEq

/-- One row of the `album_chunks` table. -/
structure ChunkRow where
  album_db_id : Nat
  chunk_index : Nat
  chunk_data : List Nat
  chunk_size : Nat
  photo_count : Nat
  deriving Repr, DecidableEq

/-- The persistent state touched by the blob chunk store: the
`downloaded_albums` rows (keyed by their autoincrement id), the
`album_chunks` rows, and the next autoincrement id. -/
structure ChunkStore where
  albums : List (Nat × AlbumRow)
  chunks : List ChunkRow
  next_id : Nat
  deriving Repr, DecidableEq

/-- The per-chunk image count computed in the chunk-insert loop of
`save_downloaded_album_chunked`:
`photo_count // len(chunks) + (1 if i < photo_count % len(chunks) else 0)`. -/
def chunkPhotoCount (photo_count chunk_count i : Nat) : Nat :=
  photo_count / chunk_count + (if i < photo_count % chunk_count then 1 else 0)

/-- The chunk-insert loop of `save_downloaded_album_chunked`.  Each iteration
is its own connection + commit (an independent unit of work); `failAt = some j`
means the `j`-th unit of work of the whole call raises `OperationalError`
(unit `0` is the album summary insert, unit `i+1` is the insert of chunk `i`).
Returns the chunk rows committed so far and whether the loop finished. -/
def saveChunksLoop (albumDbId photo_count chunk_count : Nat)
    (chunks : List (List Nat)) (i : Nat) (failAt : Option Nat)
    (acc : List ChunkRow) : List ChunkRow × Bool :=
  match chunks with
  | [] => (acc, true)
  | c :: rest =>
    if failAt = some (i + 1) then (acc, false)
    else saveChunksLoop albumDbId photo_count chunk_count rest (i + 1) failAt
      (acc ++ [⟨albumDbId, i, c, c.length,
               chunkPhotoCount photo_count chunk_count i⟩])

/-- The chunk rows that the loop commits for `chunks`, starting at index `i`. -/
def chunkRowsFrom (albumDbId photo_count chunk_count : Nat)
    (chunks : List (List Nat)) (i : Nat) : List ChunkRow :=
  match chunks with
  | [] => []
  | c :: rest =>
    ⟨albumDbId, i, c, c.length, chunkPhotoCount photo_count chunk_count i⟩ ::
      chunkRowsFrom albumDbId photo_count chunk_count rest (i + 1)

/-- `AsyncDatabase.save_downloaded_album_chunked`: inserts and commits the
album summary row (photo count, total size = sum of chunk byte lengths,
chunk count = number of input chunks), then commits each chunk in its own
unit of work, in index order.  An `OperationalError` in any unit of work is
caught; the function then returns `-1` instead of raising, leaving whatever
was already committed in place.  On success it returns the album's db id. -/
def save_downloaded_album_chunked (st : ChunkStore) (album_id album_name : String)
    (photo_count : Nat) (chunks : List (List Nat)) (failAt : Option Nat) :
    ChunkStore × Int :=
  if failAt = some 0 then (st, -1)
  else
    let row : AlbumRow :=
      ⟨album_id, album_name, photo_count, (chunks.map List.length).sum, chunks.length⟩
    let res := saveChunksLoop st.next_id photo_count chunks.length chunks 0 failAt []
    (⟨st.albums ++ [(st.next_id, row)], st.chunks ++ res.1, st.next_id + 1⟩,
     if res.2 then (st.next_id : Int) else -1)

lemma saveChunksLoop_none (albumDbId photo_count chunk_count : Nat) :
    ∀ (chunks : List (List Nat)) (i : Nat) (acc : List ChunkRow),
      saveChunksLoop albumDbId photo_count chunk_count chunks i none acc =
        (acc ++ chunkRowsFrom albumDbId photo_count chunk_count chunks i, true) := by
  intro chunks
  induction chunks with
  | nil => intro i acc; simp [saveChunksLoop, chunkRowsFrom]
  | cons c rest ih =>
    intro i acc
    simp [saveChunksLoop, chunkRowsFrom, ih]

lemma saveChunksLoop_fail (albumDbId photo_count chunk_count : Nat) :
    ∀ (k : Nat) (chunks : List (List Nat)) (i : Nat) (acc : List ChunkRow),
      k < chunks.length →
      saveChunksLoop albumDbId photo_count chunk_count chunks i (some (i + k + 1)) acc =
        (acc ++ chunkRowsFrom albumDbId photo_count chunk_count (chunks.take k) i, false) := by
  intro k
  induction k with
  | zero =>
    intro chunks i acc hk
    match chunks with
    | c :: rest => simp [saveChunksLoop, chunkRowsFrom]
  | succ k ih =>
    intro chunks i acc hk
    match chunks with
    | c :: rest =>
      have hne : ¬ (i + (k + 1) + 1 = i + 1) := by omega
      have hk' : k < rest.length := by
        simpa using Nat.lt_of_succ_lt_succ hk
      have := ih rest (i + 1) (acc ++ [⟨albumDbId, i, c, c.length,
        chunkPhotoCount photo_count chunk_count i⟩]) hk'
      have harith : i + 1 + k + 1 = i + (k + 1) + 1 := by omega
      rw [harith] at this
      simp only [saveChunksLoop, Option.some.injEq, if_neg hne, this]
      simp [chunkRowsFrom]

lemma chunkRowsFrom_map_photoCount (albumDbId photo_count chunk_count : Nat) :
    ∀ (chunks : List (List Nat)) (i : Nat),
      (chunkRowsFrom albumDbId photo_count chunk_count chunks i).map ChunkRow.photo_count =
        (List.range' i chunks.length).map (chunkPhotoCount photo_count chunk_count) := by
  intro chunks
  induction chunks with
  | nil => intro i; simp [chunkRowsFrom]
  | cons c rest ih =>
    intro i
    simp [chunkRowsFrom, List.range'_succ, ih]

lemma sum_indicator_range (r : Nat) :
    ∀ n : Nat, ((List.range n).map (fun i => if i < r then 1 else 0)).sum = min r n := by
  intro n
  induction n with
  | zero => simp
  | succ n ih =>
    rw [List.range_succ]
    simp only [List.map_append, List.sum_append, ih, List.map_cons, List.map_nil,
      List.sum_cons, List.sum_nil]
    by_cases h : n < r
    · rw [if_pos h]; omega
    · rw [if_neg h]; omega

lemma sum_map_add_const (a : Nat) (f : Nat → Nat) :
    ∀ n : Nat, ((List.range n).map (fun i => a + f i)).sum =
      n * a + ((List.range n).map f).sum := by
  intro n
  induction n with
  | zero => simp
  | succ n ih =>
    rw [List.range_succ]
    simp only [List.map_append, List.sum_append, List.map_cons, List.map_nil,
      List.sum_cons, List.sum_nil, ih]
    ring

lemma sum_chunkPhotoCount (photo_count chunk_count : Nat) (h : 0 < chunk_count) :
    ((List.range chunk_count).map (chunkPhotoCount photo_count chunk_count)).sum =
      photo_count := by
  unfold chunkPhotoCount
  rw [sum_map_add_const (photo_count / chunk_count)
    (fun i => if i < photo_count % chunk_count then 1 else 0) chunk_count,
    sum_indicator_range]
  have hmod : photo_count % chunk_count < chunk_count := Nat.mod_lt _ h
  have := Nat.div_add_mod photo_count chunk_count
  omega

lemma chunkRowsFrom_mem (albumDbId photo_count chunk_count : Nat) :
    ∀ (chunks : List (List Nat)) (i : Nat) (r : ChunkRow),
      r ∈ chunkRowsFrom albumDbId photo_count chunk_count chunks i →
      r.photo_count = chunkPhotoCount photo_count chunk_count r.chunk_index := by
  intro chunks
  induction chunks with
  | nil => intro i r hr; simp [chunkRowsFrom] at hr
  | cons c rest ih =>
    intro i r hr
    simp only [chunkRowsFrom, List.mem_cons] at hr
    rcases hr with hr | hr
    · subst hr; rfl
    · exact ih (i + 1) r hr

/-! ## Resize Engine (`ImageProcessor._resize_image_sync`) -/

/-- A resize profile as handed to the processor (one row of
`resize_profiles`). -/
structure Profile where
  name : String
  width : Nat
  height : Nat
  include_horizontal : Bool
  include_vertical : Bool
  deriving Repr, DecidableEq

/-- The scaled ("letterboxed inner") size computed in `_resize_image_sync`:
`original_aspect = w / h` and `target_aspect = tw / th` are Python float
divisions, modelled by `ℚ`; `int(new_width / original_aspect)` and
`int(new_height * original_aspect)` truncate a nonnegative float, which is
its floor (`⌊⌋₊`). -/
def scaledSize (w h tw th : Nat) : Nat × Nat :=
  let oa : ℚ := (w : ℚ) / (h : ℚ)
  let ta : ℚ := (tw : ℚ) / (th : ℚ)
  if ta < oa then (tw, ⌊(tw : ℚ) / oa⌋₊)
  else (⌊(th : ℚ) * oa⌋₊, th)

/-- The scaled size as the spec's §4.4 step 3 words it, with `round` in place
of the source's `int` truncation (written from the spec, for comparison with
`scaledSize`). -/
def scaledSizeSpec (w h tw th : Nat) : Nat × Nat :=
  let oa : ℚ := (w : ℚ) / (h : ℚ)
  let ta : ℚ := (tw : ℚ) / (th : ℚ)
  if ta < oa then (tw, (round ((tw : ℚ) / oa)).toNat)
  else ((round ((th : ℚ) * oa)).toNat, th)

/-- The output location used by `_resize_image_sync`:
`os.path.join("resized", f"{album_name}_{profile_name}")` joined with the
original file name. -/
def outputPath (album_name profile_name filename : String) : String :=
  "resized/" ++ album_name ++ "_" ++ profile_name ++ "/" ++ filename

/-- The composited image built for one profile: a canvas of the profile's
target size filled with opaque black `(0, 0, 0)`, with the scaled image of
size `inner_width × inner_height` pasted at `(paste_x, paste_y)`.
The paste offsets are Python floor divisions of nonnegative integers
(`inner_width ≤ canvas_width` always holds, see `scaledSize_le`), so `Nat`
division is faithful. -/
structure LetterboxOutput where
  canvas_width : Nat
  canvas_height : Nat
  background : Nat × Nat × Nat
  inner_width : Nat
  inner_height : Nat
  paste_x : Nat
  paste_y : Nat
  deriving Repr, DecidableEq

/-- One profile iteration of `_resize_image_sync` for an image of decoded
size `w × h` (after EXIF transposition) named `filename`: skip when the
image's orientation is not enabled in the profile (`is_horizontal` is
`original_width >= original_height`); otherwise compute the letterbox
composite; skip the save when the output path already exists on disk
(`existingPaths` models the file system).  Returns the file written, if any.
(The source computes the composite before the existence check, but writes
nothing when the path exists, so the file-system effect is as modelled.) -/
def orientationSkip (w h : Nat) (profile : Profile) : Bool :=
  let is_horizontal : Bool := decide (h ≤ w)
  (is_horizontal && !profile.include_horizontal)
    || (!is_horizontal && !profile.include_vertical)

/-- The body of one profile iteration of `_resize_image_sync` (see
`orientationSkip` for the guard and its doc for the whole step). -/
def processProfile (album_name : String) (w h : Nat) (filename : String)
    (profile : Profile) (existingPaths : List String) :
    Option (String × LetterboxOutput) :=
  if orientationSkip w h profile then
    none
  else
    let nwh := scaledSize w h profile.width profile.height
    let path := outputPath album_name profile.name filename
    if path ∈ existingPaths then none
    else some (path,
      ⟨profile.width, profile.height, (0, 0, 0), nwh.1, nwh.2,
       (profile.width - nwh.1) / 2, (profile.height - nwh.2) / 2⟩)

/-- The whole of `_resize_image_sync` for one image, as its file-system
effect: the list of (path, composited image) pairs written, one per
applicable profile whose output does not already exist. -/
def resizeImageSync (album_name : String) (w h : Nat) (filename : String)
    (profiles : List Profile) (existingPaths : List String) :
    List (String × LetterboxOutput) :=
  profiles.filterMap (fun p => processProfile album_name w h filename p existingPaths)

/-! ## Task Record Store (`update_download_task`, `update_resize_task`) -/

/-- One row of the `download_tasks` table.  `completed_at` is nullable;
timestamps are abstract instants (`Nat`). -/
structure DownloadTask where
  id : String
  album_id : String
  album_name : String
  status : String
  progress : Int
  total : Int
  current_step : Option String
  created_at : Nat
  completed_at : Option Nat
  deriving Repr, DecidableEq

/-- One row of the `resize_tasks` table. -/
structure ResizeTask where
  id : String
  downloaded_album_id : Nat
  profile_id : Nat
  status : String
  progress : Int
  total : Int
  current_step : Option String
  zip_data : Option (List Nat)
  zip_size : Int
  processed_count : Int
  created_at : Nat
  completed_at : Option Nat
  deriving Repr, DecidableEq

/-- Python truthiness of an optional string argument: `if status:` and
`if current_step:` skip both `None` and the empty string. -/
def truthyStr : Option String → Bool
  | none => false
  | some s => s ≠ ""

/-- Python truthiness of an optional bytes argument: `if zip_data:` skips
both `None` and empty bytes. -/
def truthyBytes : Option (List Nat) → Bool
  | none => false
  | some b => b ≠ []

/-- The field assignments of `update_download_task` applied to one row whose
id matched: `status` is written when truthy, and `completed_at` is stamped
with the current time exactly when the written status is `'completed'`
(note: not on `'failed'`); `progress` is written whenever it `is not None`
(including `0`); `current_step` is written when truthy. -/
def applyDownloadUpdate (t : DownloadTask) (status : Option String)
    (progress : Option Int) (current_step : Option String) (now : Nat) :
    DownloadTask :=
  let t1 :=
    match status with
    | some s =>
      if s = "" then t
      else { t with
        status := s
        completed_at := if s = "completed" then some now else t.completed_at }
    | none => t
  let t2 :=
    match progress with
    | some p => { t1 with progress := p }
    | none => t1
  match current_step with
  | some c => if c = "" then t2 else { t2 with current_step := some c }
  | none => t2

/-- The field assignments of `update_resize_task` applied to one row whose
id matched.  As in the download variant, `completed_at` is stamped only when
the written status is `'completed'`; `zip_data` is written when truthy;
`zip_size`, `processed_count` and `total` are written whenever they are not
`None`. -/
def applyResizeUpdate (t : ResizeTask) (status : Option String)
    (progress : Option Int) (current_step : Option String)
    (zip_data : Option (List Nat)) (zip_size : Option Int)
    (processed_count : Option Int) (total : Option Int) (now : Nat) :
    ResizeTask :=
  let t1 :=
    match status with
    | some s =>
      if s = "" then t
      else { t with
        status := s
        completed_at := if s = "completed" then some now else t.completed_at }
    | none => t
  let t2 :=
    match progress with
    | some p => { t1 with progress := p }
    | none => t1
  let t3 :=
    match current_step with
    | some c => if c = "" then t2 else { t2 with current_step := some c }
    | none => t2
  let t4 := if truthyBytes zip_data then { t3 with zip_data := zip_data } else t3
  let t5 :=
    match zip_size with
    | some z => { t4 with zip_size := z }
    | none => t4
  let t6 :=
    match processed_count with
    | some pc => { t5 with processed_count := pc }
    | none => t5
  match total with
  | some tot => { t6 with total := tot }
  | none => t6

/-- Whether `update_download_task` builds a non-empty `updates` list and
therefore touches the database at all. -/
def downloadUpdateNonempty (status : Option String) (progress : Option Int)
    (current_step : Option String) : Bool :=
  truthyStr status || progress.isSome || truthyStr current_step

/-- Whether `update_resize_task` builds a non-empty `updates` list. -/
def resizeUpdateNonempty (status : Option String) (progress : Option Int)
    (current_step : Option String) (zip_data : Option (List Nat))
    (zip_size : Option Int) (processed_count : Option Int)
    (total : Option Int) : Bool :=
  truthyStr status || progress.isSome || truthyStr current_step
    || truthyBytes zip_data || zip_size.isSome || processed_count.isSome
    || total.isSome

/-- The outcome of one SQLite statement: either it succeeds, or it raises
`OperationalError` after the store stayed busy past the bounded busy
timeout. -/
inductive DBOutcome
  | ok
  | busy
  deriving Repr, DecidableEq

/-- `AsyncDatabase.update_download_task`: the whole `UPDATE ... WHERE id = ?`
is wrapped in `try/except aiosqlite.OperationalError`, which prints a warning
and returns normally, so the function never raises (its return type needs no
error case).  Returns the new table contents and whether a busy failure was
dropped with a warning.  A missing id makes the `UPDATE` a silent no-op. -/
def update_download_task (tasks : List DownloadTask) (task_id : String)
    (status : Option String) (progress : Option Int)
    (current_step : Option String) (now : Nat) (outcome : DBOutcome) :
    List DownloadTask × Bool :=
  if downloadUpdateNonempty status progress current_step then
    match outcome with
    | .busy => (tasks, true)
    | .ok =>
      (tasks.map (fun t =>
        if t.id = task_id then
          applyDownloadUpdate t status progress current_step now
        else t), false)
  else (tasks, false)

/-- `AsyncDatabase.update_resize_task`: unlike the download variant, its
`UPDATE` is **not** wrapped in any `try/except` (and it connects without the
busy-timeout pragma), so an `OperationalError` propagates to the caller.
The `Except` return models that exception. -/
def update_resize_task (tasks : List ResizeTask) (task_id : String)
    (status : Option String) (progress : Option Int)
    (current_step : Option String) (zip_data : Option (List Nat))
    (zip_size : Option Int) (processed_count : Option Int)
    (total : Option Int) (now : Nat) (outcome : DBOutcome) :
    Except String (List ResizeTask) :=
  if resizeUpdateNonempty status progress current_step zip_data zip_size
      processed_count total then
    match outcome with
    | .busy => .error "OperationalError: database is locked"
    | .ok =>
      .ok (tasks.map (fun t =>
        if t.id = task_id then
          applyResizeUpdate t status progress current_step zip_data zip_size
            processed_count total now
        else t))
  else .ok tasks

/-! ## Album sync (`sync_immich_albums` asset-count expression) -/

/-- A Python value as it can flow through the asset-count expression: `None`,
an integer, or a list (a list only matters through its length and identity
as a list, so it is represented by its length). -/
inductive PyVal
  | vNone
  | vInt (n : Int)
  | vList (length : Nat)
  deriving Repr, DecidableEq

/-- Python truthiness: `None` is falsy, `0` is falsy, an empty list is
falsy. -/
def PyVal.truthy : PyVal → Bool
  | .vNone => false
  | .vInt n => n ≠ 0
  | .vList k => k ≠ 0

/-- Python `or`: returns the left operand when truthy, else the right. -/
def pyOr (a b : PyVal) : PyVal := if a.truthy then a else b

/-- One album record of the gallery API response as consulted by
`sync_immich_albums`: `album.get('assetCount')` and
`album.get('assetCountTotal')` (both `None` when absent), and the `assets`
key, which may be absent or hold an arbitrary value. -/
structure AlbumJson where
  assetCount : PyVal
  assetCountTotal : PyVal
  assets : Option PyVal
  deriving Repr, DecidableEq

/-- `isinstance(album.get('assets'), list)`. -/
def assetsIsList (al : AlbumJson) : Bool :=
  match al.assets with
  | some (.vList _) => true
  | _ => false

/-- The asset-count expression of `sync_immich_albums`, parsed with Python's
conditional-expression precedence (ternary binds looser than `or` and
associates to the right):
`(assetCount or assetCountTotal or album.get('assets', [])) if isinstance(assets, list) else ((0 or len(album.get('assets', []))) if isinstance(assets, list) else 0)`.
When `assets` is a list and both count fields are falsy, this evaluates to
the **list itself**, not its length. -/
def assetCountExpr (al : AlbumJson) : PyVal :=
  if assetsIsList al then
    pyOr al.assetCount (pyOr al.assetCountTotal (al.assets.getD (.vList 0)))
  else
    .vInt 0

/-- Modelled from the spec: the explicit precedence the spec's §9 open
question proposes as a replacement — the exact count field `assetCount` if it
is an integer, else the length of the embedded asset list, else zero. -/
def assetCountSpec (al : AlbumJson) : PyVal :=
  match al.assetCount with
  | .vInt n => .vInt n
  | _ =>
    match al.assets with
    | some (.vList k) => .vInt (k : Int)
    | _ => .vInt 0

/-! ## Artifact retrieval (`get_resize_task_zip`) -/

/-- `AsyncDatabase.get_resize_task_zip`: a pure `SELECT zip_data FROM
resize_tasks WHERE id = ? AND status = "completed"` followed by `fetchone()`;
returns the first matching row's `zip_data` (which is `None` when the column
is NULL) and `None` when no row matches.  No record is mutated: the table is
not part of the result. -/
def get_resize_task_zip (tasks : List ResizeTask) (task_id : String) :
    Option (List Nat) :=
  match tasks.find? (fun t => t.id = task_id && t.status = "completed") with
  | some t => t.zip_data
  | none => none

/-! ## Claims -/

/-- C1 counterexample: handing `save_downloaded_album_chunked` an empty chunk
list with `photo_count = 1` stores no chunk rows at all, so the per-chunk
image counts sum to `0`, not to the album's `photo_count` — the claimed
identity fails for the `chunk_count = 0` combination. -/
theorem c1_empty_chunklist_counterexample :
    ((save_downloaded_album_chunked ⟨[], [], 1⟩ "alb" "Album" 1 [] none).1.chunks.map
        ChunkRow.photo_count).sum = 0
    ∧ (0 : Nat) ≠ 1 := by
  constructor
  · rfl
  · decide

/-- C1 (amended: the chunk list must be non-empty): every chunk row stored by
`save_downloaded_album_chunked` carries image count
`photo_count // chunk_count` plus one extra when its index is below
`photo_count % chunk_count`, and the stored per-chunk image counts sum to
`photo_count` — for any `photo_count`, including `photo_count < chunk_count`. -/
theorem c1_chunk_counts (st : ChunkStore) (aid an : String) (pc : Nat)
    (chunks : List (List Nat)) (h : chunks ≠ []) :
    (∀ r ∈ (save_downloaded_album_chunked st aid an pc chunks none).1.chunks.drop
        st.chunks.length,
      r.photo_count = pc / chunks.length
        + (if r.chunk_index < pc % chunks.length then 1 else 0))
    ∧ (((save_downloaded_album_chunked st aid an pc chunks none).1.chunks.drop
        st.chunks.length).map ChunkRow.photo_count).sum = pc := by
  have hsave : (save_downloaded_album_chunked st aid an pc chunks none).1.chunks
      = st.chunks ++ chunkRowsFrom st.next_id pc chunks.length chunks 0 := by
    simp [save_downloaded_album_chunked, saveChunksLoop_none]
  rw [hsave, List.drop_left]
  constructor
  · intro r hr
    exact chunkRowsFrom_mem st.next_id pc chunks.length chunks 0 r hr
  · rw [chunkRowsFrom_map_photoCount, ← List.range_eq_range']
    exact sum_chunkPhotoCount pc chunks.length (List.length_pos.mpr h)

/-- Witness for `c1_chunk_counts` at `photo_count = 10` and three chunks
(per-chunk counts `[4, 3, 3]`, summing to 10). -/
theorem c1_chunk_counts_witness :
    ([[1], [2], [3]] : List (List Nat)) ≠ []
    ∧ (((save_downloaded_album_chunked ⟨[], [], 1⟩ "alb" "Album" 10
          [[1], [2], [3]] none).1.chunks.drop 0).map ChunkRow.photo_count).sum = 10 :=
  ⟨by decide, (c1_chunk_counts ⟨[], [], 1⟩ "alb" "Album" 10 [[1], [2], [3]]
    (by decide)).2⟩

/-- C8: `save_downloaded_album_chunked` first commits the album summary row
with `photo_count`, `total_size` equal to the sum of the chunk byte lengths
and `chunk_count` equal to the number of input chunks, then commits each
chunk in its own independent unit of work in ascending index order
(`chunkRowsFrom`); an `OperationalError` while inserting chunk `k` leaves the
summary row and exactly the first `k` chunks durable (no rollback) and makes
the call return `-1` instead of raising; a fully successful call returns the
album's db id with every chunk stored. -/
theorem c8_save_chunked_contract (st : ChunkStore) (aid an : String) (pc : Nat)
    (chunks : List (List Nat)) (k : Nat) (hk : k < chunks.length) :
    ((save_downloaded_album_chunked st aid an pc chunks (some (k + 1))).2 = -1
      ∧ (save_downloaded_album_chunked st aid an pc chunks (some (k + 1))).1.albums
          = st.albums ++ [(st.next_id,
              ⟨aid, an, pc, (chunks.map List.length).sum, chunks.length⟩)]
      ∧ (save_downloaded_album_chunked st aid an pc chunks (some (k + 1))).1.chunks
          = st.chunks ++ chunkRowsFrom st.next_id pc chunks.length (chunks.take k) 0)
    ∧ ((save_downloaded_album_chunked st aid an pc chunks none).2 = (st.next_id : Int)
      ∧ (save_downloaded_album_chunked st aid an pc chunks none).1.chunks
          = st.chunks ++ chunkRowsFrom st.next_id pc chunks.length chunks 0) := by
  have hloop := saveChunksLoop_fail st.next_id pc chunks.length k chunks 0 [] hk
  simp only [Nat.zero_add] at hloop
  constructor
  · have hne : ¬ ((some (k + 1) : Option Nat) = some 0) := by simp
    refine ⟨?_, ?_, ?_⟩ <;>
      simp [save_downloaded_album_chunked, hne, hloop]
  · constructor <;> simp [save_downloaded_album_chunked, saveChunksLoop_none]

/-- Witness for `c8_save_chunked_contract`: failing at the first chunk of a
two-chunk album reports `-1` through the return value. -/
theorem c8_save_chunked_contract_witness :
    (0 < List.length ([[1], [2, 3]] : List (List Nat)))
    ∧ (save_downloaded_album_chunked ⟨[], [], 5⟩ "alb" "Album" 7 [[1], [2, 3]]
        (some 1)).2 = -1 :=
  ⟨by decide, (c8_save_chunked_contract ⟨[], [], 5⟩ "alb" "Album" 7 [[1], [2, 3]] 0
    (by decide)).1.1⟩

lemma scaledSize_eq_natDiv (w h tw th : Nat) (hw : 0 < w) (hh : 0 < h)
    (hth : 0 < th) :
    scaledSize w h tw th
      = (if tw * h < w * th then (tw, tw * h / w) else (th * w / h, th)) := by
  have hw' : (0 : ℚ) < w := by exact_mod_cast hw
  have hh' : (0 : ℚ) < h := by exact_mod_cast hh
  have hth' : (0 : ℚ) < th := by exact_mod_cast hth
  have hcond : ((tw : ℚ) / (th : ℚ) < (w : ℚ) / (h : ℚ)) ↔ tw * h < w * th := by
    rw [div_lt_div_iff₀ hth' hh']
    constructor
    · intro hc; exact_mod_cast hc
    · intro hc; exact_mod_cast hc
  have hfloor1 : ⌊(tw : ℚ) / ((w : ℚ) / (h : ℚ))⌋₊ = tw * h / w := by
    rw [div_div_eq_mul_div,
      show ((tw : ℚ) * (h : ℚ)) = ((tw * h : ℕ) : ℚ) by push_cast; ring]
    exact Nat.floor_div_eq_div (tw * h) w
  have hfloor2 : ⌊(th : ℚ) * ((w : ℚ) / (h : ℚ))⌋₊ = th * w / h := by
    rw [← mul_div_assoc,
      show ((th : ℚ) * (w : ℚ)) = ((th * w : ℕ) : ℚ) by push_cast; ring]
    exact Nat.floor_div_eq_div (th * w) h
  by_cases hlt : tw * h < w * th
  · rw [if_pos hlt]
    unfold scaledSize
    rw [if_pos (hcond.mpr hlt), hfloor1]
  · rw [if_neg hlt]
    unfold scaledSize
    rw [if_neg (fun hc => hlt (hcond.mp hc)), hfloor2]

lemma scaledSize_le (w h tw th : Nat) (hw : 0 < w) (hh : 0 < h)
    (hth : 0 < th) :
    (scaledSize w h tw th).1 ≤ tw ∧ (scaledSize w h tw th).2 ≤ th := by
  rw [scaledSize_eq_natDiv w h tw th hw hh hth]
  by_cases hlt : tw * h < w * th
  · rw [if_pos hlt]
    refine ⟨le_refl tw, ?_⟩
    have : tw * h / w < th := by
      rw [Nat.div_lt_iff_lt_mul hw]
      calc tw * h < w * th := hlt
        _ = th * w := by ring
    exact le_of_lt this
  · rw [if_neg hlt]
    refine ⟨?_, le_refl th⟩
    have hle : th * w ≤ tw * h := by
      have := Nat.le_of_not_lt hlt
      calc th * w = w * th := by ring
        _ ≤ tw * h := this
    calc th * w / h ≤ tw * h / h := Nat.div_le_div_right hle
      _ = tw := Nat.mul_div_cancel tw hh

/-- C2 counterexample: a 3×2 source in a 1000×1000 box.  The source truncates
(`int(1000 / 1.5) = 666`) where the claim's `round` formula gives `667`, so
the claimed scaled size `(tw, round(tw / (w/h)))` does not match the code. -/
theorem c2_truncation_counterexample :
    scaledSize 3 2 1000 1000 = (1000, 666)
    ∧ scaledSizeSpec 3 2 1000 1000 = (1000, 667)
    ∧ scaledSize 3 2 1000 1000 ≠ scaledSizeSpec 3 2 1000 1000 := by
  have h1 : scaledSize 3 2 1000 1000 = (1000, 666) := by
    simp only [scaledSize]
    rw [if_pos (by norm_num), Prod.mk.injEq]
    refine ⟨rfl, ?_⟩
    rw [Nat.floor_eq_iff (by positivity)]
    norm_num
  have h2 : scaledSizeSpec 3 2 1000 1000 = (1000, 667) := by
    simp only [scaledSizeSpec]
    rw [round_eq]
    norm_num
    rfl
  refine ⟨h1, h2, ?_⟩
  rw [h1, h2]
  decide

/-- C2 (amended: the new dimension is truncated — `int`, i.e. the floor —
rather than rounded): for positive source and target dimensions, if
`w/h > tw/th` (equivalently `tw*h < w*th`) the scaled size is
`(tw, ⌊tw·h/w⌋)`, otherwise `(⌊th·w/h⌋, th)`; in both cases the scaled image
fits entirely inside the target box (`new_width ≤ tw` and `new_height ≤ th`)
without cropping. -/
theorem c2_letterbox_dims (w h tw th : Nat) (hw : 0 < w) (hh : 0 < h)
    (htw : 0 < tw) (hth : 0 < th) :
    scaledSize w h tw th
      = (if tw * h < w * th then (tw, tw * h / w) else (th * w / h, th))
    ∧ (scaledSize w h tw th).1 ≤ tw ∧ (scaledSize w h tw th).2 ≤ th :=
  ⟨scaledSize_eq_natDiv w h tw th hw hh hth,
   scaledSize_le w h tw th hw hh hth⟩

/-- Witness for `c2_letterbox_dims`: a 4000×2000 image scaled into a
1000×1000 box fits inside the box. -/
theorem c2_letterbox_dims_witness :
    ((0 : Nat) < 4000 ∧ (0 : Nat) < 2000 ∧ (0 : Nat) < 1000)
    ∧ (scaledSize 4000 2000 1000 1000).1 ≤ 1000
    ∧ (scaledSize 4000 2000 1000 1000).2 ≤ 1000 :=
  ⟨by decide,
   (c2_letterbox_dims 4000 2000 1000 1000 (by decide) (by decide) (by decide)
     (by decide)).2⟩

lemma processProfile_skip_existing (a : String) (w h : Nat) (f : String)
    (pr : Profile) (ex : List String)
    (hex : outputPath a pr.name f ∈ ex) :
    processProfile a w h f pr ex = none := by
  simp only [processProfile]
  by_cases h1 : orientationSkip w h pr = true
  · rw [if_pos h1]
  · rw [if_neg h1, if_pos hex]

lemma processProfile_eq_some (a : String) (w h : Nat) (f : String)
    (pr : Profile) (ex : List String) (p : String) (out : LetterboxOutput)
    (hout : processProfile a w h f pr ex = some (p, out)) :
    orientationSkip w h pr = false
    ∧ p = outputPath a pr.name f
    ∧ p ∉ ex
    ∧ out = ⟨pr.width, pr.height, (0, 0, 0),
        (scaledSize w h pr.width pr.height).1,
        (scaledSize w h pr.width pr.height).2,
        (pr.width - (scaledSize w h pr.width pr.height).1) / 2,
        (pr.height - (scaledSize w h pr.width pr.height).2) / 2⟩ := by
  simp only [processProfile] at hout
  by_cases h1 : orientationSkip w h pr = true
  · rw [if_pos h1] at hout
    cases hout
  · rw [if_neg h1] at hout
    by_cases h2 : outputPath a pr.name f ∈ ex
    · rw [if_pos h2] at hout
      cases hout
    · rw [if_neg h2] at hout
      injection hout with hpair
      injection hpair with hp ho
      exact ⟨by simpa using h1, hp.symm, hp ▸ h2, ho.symm⟩

lemma processProfile_none_append (a : String) (w h : Nat) (f : String)
    (pr : Profile) (ex ex' : List String)
    (hnone : processProfile a w h f pr ex = none) :
    processProfile a w h f pr (ex ++ ex') = none := by
  simp only [processProfile] at hnone ⊢
  by_cases h1 : orientationSkip w h pr = true
  · rw [if_pos h1]
  · rw [if_neg h1] at hnone ⊢
    by_cases h2 : outputPath a pr.name f ∈ ex
    · rw [if_pos (List.mem_append_left ex' h2)]
    · rw [if_neg h2] at hnone
      cases hnone

/-- C5: re-running the resize is idempotent.  If the output file keyed by
`{album_name}_{profile_name}/{original_filename}` already exists, the
profile step writes nothing (the existing file is left unchanged, since no
write targets it); consequently re-running `_resize_image_sync` over a file
system that already holds the first run's outputs writes zero files. -/
theorem c5_resize_idempotent (album : String) (w h : Nat) (filename : String)
    (pr : Profile) (profiles : List Profile) (fs : List String)
    (hex : outputPath album pr.name filename ∈ fs) :
    processProfile album w h filename pr fs = none
    ∧ resizeImageSync album w h filename profiles
        (fs ++ (resizeImageSync album w h filename profiles fs).map Prod.fst)
      = [] := by
  refine ⟨processProfile_skip_existing album w h filename pr fs hex, ?_⟩
  simp only [resizeImageSync]
  rw [List.filterMap_eq_nil_iff]
  intro q hq
  cases hpp : processProfile album w h filename q fs with
  | none => exact processProfile_none_append album w h filename q fs _ hpp
  | some so =>
    obtain ⟨s, o⟩ := so
    have hpath : s = outputPath album q.name filename :=
      (processProfile_eq_some album w h filename q fs s o hpp).2.1
    have hmem : s ∈ (List.filterMap
        (fun p => processProfile album w h filename p fs) profiles).map Prod.fst := by
      refine List.mem_map.mpr ⟨(s, o), ?_, rfl⟩
      exact List.mem_filterMap.mpr ⟨q, hq, hpp⟩
    refine processProfile_skip_existing album w h filename q _ ?_
    rw [← hpath]
    exact List.mem_append_right fs hmem

/-- The concrete profile of the spec's worked example:
`{width:1000, height:1000, include_horizontal:true, include_vertical:false}`. -/
def pr1000 : Profile := ⟨"p1000", 1000, 1000, true, false⟩

/-- C6: every composited output is an opaque black canvas of exactly
`target_width × target_height` with the scaled image pasted centered at
offset `((target_width - new_width)//2, (target_height - new_height)//2)`;
in particular `pr1000` applied to a 4000×2000 image yields a 1000×500 scaled
image at offset `(0, 250)` on a 1000×1000 black canvas, and applied to a
2000×4000 image yields zero output files for that profile. -/
theorem c6_letterbox_composite (a f : String) (w h : Nat) (pr : Profile)
    (ex : List String) (p : String) (out : LetterboxOutput)
    (hout : processProfile a w h f pr ex = some (p, out)) :
    (out.canvas_width = pr.width ∧ out.canvas_height = pr.height
      ∧ out.background = (0, 0, 0)
      ∧ (out.inner_width, out.inner_height) = scaledSize w h pr.width pr.height
      ∧ out.paste_x = (pr.width - out.inner_width) / 2
      ∧ out.paste_y = (pr.height - out.inner_height) / 2
      ∧ p = outputPath a pr.name f)
    ∧ processProfile "album" 4000 2000 "img.jpg" pr1000 []
        = some (outputPath "album" "p1000" "img.jpg",
            ⟨1000, 1000, (0, 0, 0), 1000, 500, 0, 250⟩)
    ∧ processProfile "album" 2000 4000 "img.jpg" pr1000 [] = none := by
  have hsz : scaledSize 4000 2000 1000 1000 = (1000, 500) := by
    rw [scaledSize_eq_natDiv 4000 2000 1000 1000 (by decide) (by decide) (by decide)]
    decide
  obtain ⟨hskip, hp, hnot, ho⟩ :=
    processProfile_eq_some a w h f pr ex p out hout
  refine ⟨⟨?_, ?_, ?_, ?_, ?_, ?_, hp⟩, ?_, ?_⟩
  · rw [ho]
  · rw [ho]
  · rw [ho]
  · rw [ho]
  · rw [ho]
  · rw [ho]
  · simp only [processProfile, pr1000]
    rw [if_neg (by decide), if_neg (by simp), hsz]
    rfl
  · simp only [processProfile]
    rw [if_pos (by decide)]

/-- Witness for `c6_letterbox_composite` at the 4000×2000 worked example. -/
theorem c6_letterbox_composite_witness :
    processProfile "album" 4000 2000 "img.jpg" pr1000 []
      = some (outputPath "album" "p1000" "img.jpg",
          ⟨1000, 1000, (0, 0, 0), 1000, 500, 0, 250⟩)
    ∧ (⟨1000, 1000, (0, 0, 0), 1000, 500, 0, 250⟩ : LetterboxOutput).canvas_width
        = pr1000.width := by
  have hex : processProfile "album" 4000 2000 "img.jpg" pr1000 []
      = some (outputPath "album" "p1000" "img.jpg",
          ⟨1000, 1000, (0, 0, 0), 1000, 500, 0, 250⟩) := by
    have hsz : scaledSize 4000 2000 1000 1000 = (1000, 500) := by
      rw [scaledSize_eq_natDiv 4000 2000 1000 1000 (by decide) (by decide) (by decide)]
      decide
    simp only [processProfile, pr1000]
    rw [if_neg (by decide), if_neg (by simp), hsz]
    rfl
  exact ⟨hex, (c6_letterbox_composite "album" "img.jpg" 4000 2000 pr1000 []
    (outputPath "album" "p1000" "img.jpg")
    ⟨1000, 1000, (0, 0, 0), 1000, 500, 0, 250⟩ hex).1.1⟩

/-- Witness for `c5_resize_idempotent`: with the profile's output already on
disk, the profile step writes nothing. -/
theorem c5_resize_idempotent_witness :
    outputPath "album" "p1000" "img.jpg" ∈ [outputPath "album" "p1000" "img.jpg"]
    ∧ processProfile "album" 4000 2000 "img.jpg" pr1000
        [outputPath "album" "p1000" "img.jpg"] = none :=
  ⟨List.mem_singleton.mpr rfl,
   (c5_resize_idempotent "album" 4000 2000 "img.jpg" pr1000 []
     [outputPath "album" "p1000" "img.jpg"] (List.mem_singleton.mpr rfl)).1⟩

lemma applyDownloadUpdate_completed_at (t : DownloadTask) (status : Option String)
    (progress : Option Int) (step : Option String) (now : Nat) :
    (applyDownloadUpdate t status progress step now).completed_at
      = if status = some "completed" then some now else t.completed_at := by
  rcases status with _ | s <;> rcases progress with _ | p <;>
    rcases step with _ | c <;>
      simp [applyDownloadUpdate] <;> split_ifs <;> simp_all

lemma applyResizeUpdate_completed_at (rt : ResizeTask) (status : Option String)
    (progress : Option Int) (step : Option String) (zd : Option (List Nat))
    (zs pcnt tot : Option Int) (now : Nat) :
    (applyResizeUpdate rt status progress step zd zs pcnt tot now).completed_at
      = if status = some "completed" then some now else rt.completed_at := by
  rcases status with _ | s <;> rcases progress with _ | p <;>
    rcases step with _ | c <;> rcases zs with _ | z <;>
      rcases pcnt with _ | q <;> rcases tot with _ | u <;>
        simp [applyResizeUpdate] <;> split_ifs <;> simp_all

lemma applyDownloadUpdate_progress (t : DownloadTask) (status : Option String)
    (progress : Option Int) (step : Option String) (now : Nat) :
    (applyDownloadUpdate t status progress step now).progress
      = progress.getD t.progress := by
  rcases status with _ | s <;> rcases progress with _ | p <;>
    rcases step with _ | c <;>
      simp [applyDownloadUpdate] <;> split_ifs <;> simp_all

lemma applyResizeUpdate_progress (rt : ResizeTask) (status : Option String)
    (progress : Option Int) (step : Option String) (zd : Option (List Nat))
    (zs pcnt tot : Option Int) (now : Nat) :
    (applyResizeUpdate rt status progress step zd zs pcnt tot now).progress
      = progress.getD rt.progress := by
  rcases status with _ | s <;> rcases progress with _ | p <;>
    rcases step with _ | c <;> rcases zs with _ | z <;>
      rcases pcnt with _ | q <;> rcases tot with _ | u <;>
        simp [applyResizeUpdate] <;> split_ifs <;> simp_all

/-- A running download task with `completed_at` still unset, used as the
concrete state for the task-store counterexamples and witnesses. -/
def sampleDownloadTask : DownloadTask :=
  ⟨"t1", "alb", "Album", "running", 0, 10, none, 0, none⟩

/-- A completed resize task holding a packaged artifact. -/
def sampleResizeTask : ResizeTask :=
  ⟨"rz1", 1, 1, "completed", 10, 10, none, some [1, 2], 2, 10, 0, some 9⟩

/-- C3 counterexample: updating a running task to `status = 'failed'` leaves
`completed_at` at NULL — the store stamps `completed_at` only on
`'completed'`, so the claim that both terminal statuses stamp it fails. -/
theorem c3_failed_no_stamp_counterexample :
    (applyDownloadUpdate sampleDownloadTask (some "failed") none none 7).status
      = "failed"
    ∧ (applyDownloadUpdate sampleDownloadTask (some "failed") none none 7).completed_at
      = none := by
  constructor <;> rfl

/-- C3 (amended): an update stamps `completed_at` with the current time if
and only if it sets `status` to `'completed'`; updates that set `'failed'`
or do not set a status leave `completed_at` unchanged (and a repeated
`'completed'` update re-stamps it — the store enforces no once-only rule).
Holds for both download-task and resize-task updates. -/
theorem c3_completed_at_stamping (t : DownloadTask) (rt : ResizeTask)
    (status : Option String) (progress : Option Int) (step : Option String)
    (zd : Option (List Nat)) (zs pcnt tot : Option Int) (now : Nat) :
    ((status = some "completed" →
        (applyDownloadUpdate t status progress step now).completed_at = some now)
      ∧ (status ≠ some "completed" →
        (applyDownloadUpdate t status progress step now).completed_at
          = t.completed_at))
    ∧ ((status = some "completed" →
        (applyResizeUpdate rt status progress step zd zs pcnt tot now).completed_at
          = some now)
      ∧ (status ≠ some "completed" →
        (applyResizeUpdate rt status progress step zd zs pcnt tot now).completed_at
          = rt.completed_at)) := by
  rw [applyDownloadUpdate_completed_at, applyResizeUpdate_completed_at]
  refine ⟨⟨?_, ?_⟩, ?_, ?_⟩ <;> intro hs
  · rw [if_pos hs]
  · rw [if_neg hs]
  · rw [if_pos hs]
  · rw [if_neg hs]

/-- Witness for `c3_completed_at_stamping`: a `'completed'` update stamps
`completed_at` with the update's timestamp. -/
theorem c3_completed_at_stamping_witness :
    (applyDownloadUpdate sampleDownloadTask (some "completed") none none 7).completed_at
      = some 7 :=
  (c3_completed_at_stamping sampleDownloadTask sampleResizeTask
    (some "completed") none none none none none none 7).1.1 rfl

/-- C4 counterexample: a resize-task update hitting a busy store raises the
store error to the caller instead of dropping it with a warning —
`update_resize_task` has no `try/except` around its `UPDATE`, so the claim
that busy failures never raise for both task kinds fails. -/
theorem c4_resize_update_raises_counterexample :
    update_resize_task [] "t1" (some "running") none none none none none none 0
      DBOutcome.busy
      = Except.error "OperationalError: database is locked" := by
  rfl

/-- C4 (amended): a store-busy failure of an individual **download**-task
update is dropped after the bounded busy timeout with a logged warning and
the call returns normally, leaving the table untouched; a **resize**-task
update in the same situation propagates the `OperationalError` to the
caller. -/
theorem c4_store_busy_handling (dts : List DownloadTask) (rts : List ResizeTask)
    (tid : String) (status : Option String) (progress : Option Int)
    (step : Option String) (zd : Option (List Nat)) (zs pcnt tot : Option Int)
    (now : Nat)
    (hd : downloadUpdateNonempty status progress step = true)
    (hr : resizeUpdateNonempty status progress step zd zs pcnt tot = true) :
    update_download_task dts tid status progress step now DBOutcome.busy
      = (dts, true)
    ∧ update_resize_task rts tid status progress step zd zs pcnt tot now
        DBOutcome.busy
      = Except.error "OperationalError: database is locked" := by
  constructor
  · simp [update_download_task, hd]
  · simp [update_resize_task, hr]

/-- Witness for `c4_store_busy_handling` on a status-bearing update. -/
theorem c4_store_busy_handling_witness :
    (downloadUpdateNonempty (some "running") none none = true
      ∧ resizeUpdateNonempty (some "running") none none none none none none = true)
    ∧ update_download_task [sampleDownloadTask] "t1" (some "running") none none 3
        DBOutcome.busy
      = ([sampleDownloadTask], true) :=
  ⟨⟨by decide, by decide⟩,
   (c4_store_busy_handling [sampleDownloadTask] [] "t1" (some "running") none
     none none none none none 3 (by decide) (by decide)).1⟩

/-- C7 counterexample: the store applies progress updates verbatim, so a
poller can read `5` and then `3` on a still-running task (a decreasing
sequence), and a later update can push `progress` to `99` past the task's
finalized `total = 10` — the store update does not preserve the claimed
invariant. -/
theorem c7_progress_not_monotone_counterexample :
    ((applyDownloadUpdate sampleDownloadTask none (some 5) none 1).progress = 5
    ∧ (applyDownloadUpdate (applyDownloadUpdate sampleDownloadTask none (some 5)
        none 1) none (some 3) none 2).progress = 3
    ∧ (applyDownloadUpdate (applyDownloadUpdate sampleDownloadTask none (some 5)
        none 1) none (some 3) none 2).status = "running")
    ∧ ((applyDownloadUpdate sampleDownloadTask none (some 99) none 3).progress = 99
    ∧ (applyDownloadUpdate sampleDownloadTask none (some 99) none 3).total = 10) := by
  refine ⟨⟨?_, ?_, ?_⟩, ?_, ?_⟩ <;> rfl

/-- C7 (amended): the store is last-writer-wins on `progress` with no
monotonicity or `total`-bound guard — each update writes exactly the
supplied value (and leaves `progress` unchanged when no value is supplied),
for both download- and resize-task updates; the readable sequence is
therefore non-decreasing and bounded by `total` only if the calling
orchestrator supplies such values. -/
theorem c7_progress_last_writer_wins (t : DownloadTask) (rt : ResizeTask)
    (status : Option String) (step : Option String) (zd : Option (List Nat))
    (zs pcnt tot : Option Int) (now : Nat) :
    (∀ p : Int, (applyDownloadUpdate t status (some p) step now).progress = p)
    ∧ (applyDownloadUpdate t status none step now).progress = t.progress
    ∧ (∀ p : Int,
        (applyResizeUpdate rt status (some p) step zd zs pcnt tot now).progress = p)
    ∧ (applyResizeUpdate rt status none step zd zs pcnt tot now).progress
        = rt.progress := by
  refine ⟨fun p => ?_, ?_, fun p => ?_, ?_⟩ <;>
    simp [applyDownloadUpdate_progress, applyResizeUpdate_progress]

/-- C9: the asset-count fallback expression of `sync_immich_albums` is not
equivalent to the explicit precedence "exact count field (`assetCount`),
else count of the embedded asset list, else zero".  Concretely, for an album
record with no count fields and an embedded two-element asset list, the
source's expression evaluates to the asset **list itself** (Python `or`
returns its last operand), while the priority list yields the integer `2` —
the two computations differ on this record shape. -/
theorem c9_asset_count_not_precedence :
    assetCountExpr ⟨.vNone, .vNone, some (.vList 2)⟩ = .vList 2
    ∧ assetCountSpec ⟨.vNone, .vNone, some (.vList 2)⟩ = .vInt 2
    ∧ assetCountExpr ⟨.vNone, .vNone, some (.vList 2)⟩
        ≠ assetCountSpec ⟨.vNone, .vNone, some (.vList 2)⟩ := by
  refine ⟨rfl, rfl, ?_⟩
  decide

/-- C10: over a table whose ids are unique (`id` is the primary key),
`get_resize_task_zip` returns stored bytes exactly when a task with that id
exists, is in status `'completed'`, and has non-NULL `zip_data`; when no
task with the id is `'completed'` (unknown id, or pending/running/failed
status) it returns `None`.  The operation is a pure read — it takes no
store state to a new state — so it mutates no record. -/
theorem c10_get_resize_task_zip_spec (tasks : List ResizeTask) (tid : String)
    (huniq : (tasks.map ResizeTask.id).Nodup) :
    (∀ bytes : List Nat, get_resize_task_zip tasks tid = some bytes
      ↔ ∃ t ∈ tasks, t.id = tid ∧ t.status = "completed"
          ∧ t.zip_data = some bytes)
    ∧ ((∀ t ∈ tasks, t.id = tid → t.status ≠ "completed") →
        get_resize_task_zip tasks tid = none) := by
  constructor
  · intro bytes
    constructor
    · intro hsome
      unfold get_resize_task_zip at hsome
      cases hfind : tasks.find? (fun t => t.id = tid && t.status = "completed") with
      | none => rw [hfind] at hsome; cases hsome
      | some t =>
        rw [hfind] at hsome
        have hpred := List.find?_some hfind
        simp only [Bool.and_eq_true, decide_eq_true_eq] at hpred
        exact ⟨t, List.mem_of_find?_eq_some hfind, hpred.1, hpred.2, hsome⟩
    · rintro ⟨t, hmem, hid, hst, hzip⟩
      unfold get_resize_task_zip
      cases hfind : tasks.find? (fun t => t.id = tid && t.status = "completed") with
      | none =>
        have := List.find?_eq_none.mp hfind t hmem
        simp [hid, hst] at this
      | some t' =>
        have hpred := List.find?_some hfind
        simp only [Bool.and_eq_true, decide_eq_true_eq] at hpred
        have hmem' := List.mem_of_find?_eq_some hfind
        have ht : t' = t :=
          List.inj_on_of_nodup_map huniq hmem' hmem (by rw [hpred.1, hid])
        rw [ht]
        exact hzip
  · intro hnone
    unfold get_resize_task_zip
    cases hfind : tasks.find? (fun t => t.id = tid && t.status = "completed") with
    | none => rfl
    | some t =>
      have hpred := List.find?_some hfind
      simp only [Bool.and_eq_true, decide_eq_true_eq] at hpred
      exact absurd hpred.2 (hnone t (List.mem_of_find?_eq_some hfind) hpred.1)

/-- Witness for `c10_get_resize_task_zip_spec`: a completed task with a
stored artifact yields its bytes. -/
theorem c10_get_resize_task_zip_witness :
    ([sampleResizeTask].map ResizeTask.id).Nodup
    ∧ get_resize_task_zip [sampleResizeTask] "rz1" = some [1, 2] :=
  ⟨by simp,
   ((c10_get_resize_task_zip_spec [sampleResizeTask] "rz1" (by simp)).1 [1, 2]).mpr
     ⟨sampleResizeTask, by simp, rfl, rfl, rfl⟩⟩
